import Mathlib

/-
  Verification of the report-generation utilities of DataScienceBioLab/squirrel.

  Two scripts are embedded:
  - Scanner   : .github/scripts/generate_report.py   (Log Scanner / Report Assembler)
  - Template  : docs/income/automation/report-generator.py (Template-Based Report Builder)

  Python strings are modelled as Lean String; Python substring tests
  ("pat in s") as strContains; str.splitlines() as pySplitlines (the inputs
  at stake are newline-separated CI logs, so only the LF separator is
  modelled).  File reads are modelled by an explicit file-state value and
  writes by an explicit in-memory filesystem restricted to the reports
  directory, which is all either script ever touches.
-/

/- Substring machinery: structurally recursive so that the kernel can
   evaluate it on concrete inputs. -/

def strLeads : List Char → List Char → Bool
  | [], _ => true
  | _ :: _, [] => false
  | p :: ps, c :: cs => p == c && strLeads ps cs

def subOccurs (pat : List Char) : List Char → Bool
  | [] => strLeads pat []
  | c :: cs => strLeads pat (c :: cs) || subOccurs pat cs

/-- Python `pat in s` (substring containment). -/
def strContains (s pat : String) : Bool :=
  subOccurs pat.data s.data

/-- Python `s.startswith(pat)`; used to classify report lines. -/
def strStarts (s pat : String) : Bool :=
  strLeads pat.data s.data

def pySplitlinesAux : List Char → List Char → List String
  | [], [] => []
  | [], acc => [String.mk acc.reverse]
  | '\n' :: rest, acc => String.mk acc.reverse :: pySplitlinesAux rest []
  | c :: rest, acc => pySplitlinesAux rest (c :: acc)

/-- Python `s.splitlines()` for LF-separated text: no trailing empty entry. -/
def pySplitlines (s : String) : List String :=
  pySplitlinesAux s.data []

/- Filesystem model: both scripts only ever write files directly inside the
   `reports` directory, so the model records whether that directory exists
   and the files inside it (name within the directory, content). -/

structure FS where
  reportsDirExists : Bool
  files : List (String × String)

/-- Overwrite-or-add a file entry, as `open(path, "w")` does. -/
def upsert : List (String × String) → String → String → List (String × String)
  | [], name, content => [(name, content)]
  | p :: rest, name, content =>
    if p.1 == name then (name, content) :: rest
    else p :: upsert rest name content

def lookupFile (files : List (String × String)) (name : String) : Option String :=
  (files.find? (fun p => p.1 == name)).map Prod.snd

/-- Python `open("reports/" + name, "w").write(content)` / `Path.write_text`:
    fails (FileNotFoundError) when the parent directory is missing, otherwise
    overwrites any existing file of that name. -/
def openWrite (fs : FS) (name content : String) : Option FS :=
  if fs.reportsDirExists then some { fs with files := upsert fs.files name content }
  else none

namespace Scanner

/- Embedding of .github/scripts/generate_report.py. -/

/-- State of one of the three optional input log files: `absent` models
    `Path(...).exists()` returning False; `ioError e` models `read_text()`
    raising an exception rendered as message `e`. -/
inductive FileState where
  | absent : FileState
  | present : String → FileState
  | ioError : String → FileState

def clippyMatches (content : String) : List String :=
  (pySplitlines content).filter (fun l => strContains l "warning:")

def renderClippy (content : String) : List String :=
  let warnings := clippyMatches content
  if !warnings.isEmpty then
    ("Found " ++ toString warnings.length ++ " clippy warnings:") :: "" :: "```" ::
      (warnings ++ ["```"])
  else
    ["No clippy warnings found."]

/-- ReportGenerator.process_clippy_output. -/
def process_clippy_output : FileState → List String
  | .absent => []
  | .present c => renderClippy c
  | .ioError e => ["Error processing clippy output: " ++ e]

def fmtMatches (content : String) : List String :=
  (pySplitlines content).filter (fun l => strContains l "Diff in")

def renderFmt (content : String) : List String :=
  let formatting_issues := fmtMatches content
  if !formatting_issues.isEmpty then
    ("Found " ++ toString formatting_issues.length ++ " formatting issues:") :: "" :: "```" ::
      (formatting_issues ++ ["```"])
  else
    ["No formatting issues found."]

/-- ReportGenerator.process_fmt_output. -/
def process_fmt_output : FileState → List String
  | .absent => []
  | .present c => renderFmt c
  | .ioError e => ["Error processing fmt output: " ++ e]

def testFailMatches (content : String) : List String :=
  (pySplitlines content).filter (fun l => strContains l "test result: FAILED")

def renderTest (content : String) : List String :=
  if strContains content "test result: ok" then ["✅ All tests passed"]
  else
    let failed_tests := testFailMatches content
    if !failed_tests.isEmpty then
      "❌ Some tests failed:" :: "" :: "```" :: (failed_tests ++ ["```"])
    else []

/-- ReportGenerator.process_test_output. -/
def process_test_output : FileState → List String
  | .absent => []
  | .present c => renderTest c
  | .ioError e => ["Error processing test output: " ++ e]

/-- The three fixed input files read from the working directory. -/
structure ScannerInput where
  clippy : FileState
  fmt : FileState
  test : FileState

/-- The fixed header block; `t` is the formatted UTC timestamp. -/
def headerLines (t : String) : List String :=
  ["# Code Analysis Report", "Generated on: " ++ t, "", "## Summary", ""]

def clippySection (st : FileState) : List String :=
  let rs := process_clippy_output st
  if !rs.isEmpty then
    ["### Rust Analysis", "", "#### Clippy Findings", ""] ++ rs ++ [""]
  else []

def fmtSection (st : FileState) : List String :=
  let rs := process_fmt_output st
  if !rs.isEmpty then ["#### Formatting Issues", ""] ++ rs ++ [""] else []

def testSection (st : FileState) : List String :=
  let rs := process_test_output st
  if !rs.isEmpty then ["### Test Results", ""] ++ rs ++ [""] else []

/-- The lines of report_content built by ReportGenerator.generate_report. -/
def reportLines (inp : ScannerInput) (t : String) : List String :=
  headerLines t ++ clippySection inp.clippy ++ fmtSection inp.fmt ++ testSection inp.test

/-- ReportGenerator.generate_report: build the content, write
    `reports/analysis-report.md`, print the success message. -/
def generate_report (fs : FS) (inp : ScannerInput) (t : String) : Option (FS × String) :=
  (openWrite fs "analysis-report.md" (String.intercalate "\n" (reportLines inp t))).map
    (fun fs2 => (fs2, "Report generated at reports/analysis-report.md"))

/-- main: `__init__` runs `Path("reports").mkdir(exist_ok=True)` (idempotent
    create-if-absent), then generate_report. -/
def main (fs : FS) (inp : ScannerInput) (t : String) : Option (FS × String) :=
  generate_report { fs with reportsDirExists := true } inp t

end Scanner

namespace Template

/- Embedding of docs/income/automation/report-generator.py. -/

/-- JSON values as produced by json.load. -/
inductive Json where
  | null : Json
  | bool : Bool → Json
  | num : Int → Json
  | str : String → Json
  | arr : List Json → Json
  | obj : List (String × Json) → Json

/-- State of one of the three required JSON input files: `absent` makes
    `open` raise FileNotFoundError, `malformed` makes `json.load` raise
    JSONDecodeError, `wellFormed j` parses to `j`. -/
inductive InputFile where
  | absent : InputFile
  | malformed : String → InputFile
  | wellFormed : Json → InputFile

inductive LoadError where
  | fileNotFound : LoadError
  | jsonDecodeError : LoadError

/-- Python `open(file)` followed by `json.load(f)`. -/
def loadJson : InputFile → Except LoadError Json
  | .absent => .error .fileNotFound
  | .malformed _ => .error .jsonDecodeError
  | .wellFormed j => .ok j

/-- ReportGenerator.load_analysis_data. -/
def load_analysis_data : InputFile → Except LoadError Json := loadJson

/-- ReportGenerator.load_security_data. -/
def load_security_data : InputFile → Except LoadError Json := loadJson

/-- ReportGenerator.load_performance_data. -/
def load_performance_data : InputFile → Except LoadError Json := loadJson

/-- Python dict.get on the parsed JSON object (first binding wins; parsed
    JSON objects have unique keys). -/
def jsonGet (fields : List (String × Json)) (key : String) : Option Json :=
  (fields.find? (fun p => p.1 == key)).map Prod.snd

/-- Python len(): defined on lists, strings and dicts; raises TypeError
    (modelled as none) on other values. -/
def pyLen : Json → Option Nat
  | .str s => some s.length
  | .arr xs => some xs.length
  | .obj fs => some fs.length
  | _ => none

structure Metrics where
  files_reviewed : Nat
  critical_issues : Nat
  major_issues : Nat
  minor_issues : Nat
  best_practices : Nat

/-- Python `len(analysis_data.get(key, []))`. -/
def lenOfKey (fields : List (String × Json)) (key : String) : Option Nat :=
  pyLen ((jsonGet fields key).getD (.arr []))

/-- ReportGenerator._calculate_metrics; `.get` on a non-mapping raises
    AttributeError (modelled as none). -/
def calculate_metrics : Json → Option Metrics
  | .obj fields => do
    let f ← lenOfKey fields "files"
    let c ← lenOfKey fields "critical"
    let ma ← lenOfKey fields "major"
    let mi ← lenOfKey fields "minor"
    let b ← lenOfKey fields "best_practices"
    pure ⟨f, c, ma, mi, b⟩
  | _ => none

/-- Specification-side characterization of one metric count: the length of
    the list stored under `key`, and 0 when the key is absent. -/
def countFor (fields : List (String × Json)) (key : String) : Nat :=
  match jsonGet fields key with
  | some (.arr xs) => xs.length
  | _ => 0

/-- The rendering context handed to the jinja2 template (report_data). -/
structure Context where
  project_name : String
  date : String
  reviewer : String
  analysis : Json
  security : Json
  performance : Json
  metrics : Metrics

/-- ReportGenerator.generate_report: builds report_data and renders the
    external template; the template engine is abstracted as the function
    argument `render`.  The current date is the parameter `date`. -/
def generate_report (render : Context → String) (project_name date : String)
    (analysis security performance : Json) : Option String :=
  (calculate_metrics analysis).map (fun m =>
    render { project_name := project_name, date := date, reviewer := "DataScienceBioLab",
             analysis := analysis, security := security, performance := performance,
             metrics := m })

/-- ReportGenerator.save_report: plain `open(output_file, "w")` plus write;
    there is no directory creation anywhere in this script. -/
def save_report (fs : FS) (name content : String) : Option FS :=
  openWrite fs name content

inductive RunError where
  | loadAnalysis : LoadError → RunError
  | loadSecurity : LoadError → RunError
  | loadPerformance : LoadError → RunError
  | metricsTypeError : RunError
  | writeError : RunError

def isLoadFailure : RunError → Bool
  | .loadAnalysis _ => true
  | .loadSecurity _ => true
  | .loadPerformance _ => true
  | _ => false

def resultIsLoadFailure : Except RunError String → Bool
  | .error e => isLoadFailure e
  | .ok _ => false

/-- Whether loading this input raises (file absent or JSON malformed). -/
def loadFails : InputFile → Bool
  | .wellFormed _ => false
  | _ => true

/-- main (after the argument-count check): load the three inputs in order,
    render, then write `reports/<project>-review-<YYYYMMDD>.md` and print the
    path.  `date` is strftime %Y-%m-%d, `dateCompact` is strftime %Y%m%d.
    The returned FS is the filesystem after the run (unchanged on error). -/
def main (render : Context → String) (project_name date dateCompact : String)
    (analysis_file security_file performance_file : InputFile) (fs : FS) :
    Except RunError String × FS :=
  match load_analysis_data analysis_file with
  | .error e => (.error (.loadAnalysis e), fs)
  | .ok analysis_data =>
    match load_security_data security_file with
    | .error e => (.error (.loadSecurity e), fs)
    | .ok security_data =>
      match load_performance_data performance_file with
      | .error e => (.error (.loadPerformance e), fs)
      | .ok performance_data =>
        match generate_report render project_name date
            analysis_data security_data performance_data with
        | none => (.error .metricsTypeError, fs)
        | some report =>
          let output_file := project_name ++ "-review-" ++ dateCompact ++ ".md"
          match save_report fs output_file report with
          | none => (.error .writeError, fs)
          | some fs2 => (.ok ("Report generated: reports/" ++ output_file), fs2)

end Template

/- Helper lemmas. -/

theorem strLeads_self_append (as bs : List Char) : strLeads as (as ++ bs) = true := by
  induction as with
  | nil => rfl
  | cons a as ih => simp [strLeads, ih]

theorem strStarts_append (p s : String) : strStarts (p ++ s) p = true := by
  show strLeads p.data (p.data ++ s.data) = true
  exact strLeads_self_append _ _

theorem strStarts_append2 (p a b : String) : strStarts (p ++ a ++ b) p = true := by
  show strLeads p.data (p.data ++ a.data ++ b.data) = true
  rw [List.append_assoc]
  exact strLeads_self_append _ _

theorem ne_of_starts (a b p : String) (ha : strStarts a p = true)
    (hb : strStarts b p = false) : a ≠ b := by
  intro h
  rw [h, hb] at ha
  exact Bool.noConfusion ha

/-- Membership in a count line, blank, and fenced code block. -/
theorem mem_fence_block {count : String} {m : List String} {l : String}
    (h : l ∈ count :: "" :: "```" :: (m ++ ["```"])) :
    l = count ∨ l = "" ∨ l = "```" ∨ l ∈ m := by
  rcases List.mem_cons.mp h with h | h
  · exact Or.inl h
  rcases List.mem_cons.mp h with h | h
  · exact Or.inr (Or.inl h)
  rcases List.mem_cons.mp h with h | h
  · exact Or.inr (Or.inr (Or.inl h))
  rcases List.mem_append.mp h with h | h
  · exact Or.inr (Or.inr (Or.inr h))
  rcases List.mem_cons.mp h with h | h
  · exact Or.inr (Or.inr (Or.inl h))
  · exact absurd h (List.not_mem_nil _)

theorem lookupFile_upsert (files : List (String × String)) (name content : String) :
    lookupFile (upsert files name content) name = some content := by
  induction files with
  | nil => simp [upsert, lookupFile]
  | cons p rest ih =>
    cases h : p.1 == name with
    | true => simp [upsert, h, lookupFile, List.find?]
    | false =>
      simp only [upsert, h, Bool.false_eq_true, if_false]
      simp only [lookupFile, List.find?] at ih ⊢
      rw [h]
      exact ih

theorem lenOfKey_of_listValued (fields : List (String × Template.Json)) (key : String)
    (h : ∀ v, Template.jsonGet fields key = some v → ∃ xs, v = Template.Json.arr xs) :
    Template.lenOfKey fields key = some (Template.countFor fields key) := by
  unfold Template.lenOfKey Template.countFor
  cases hg : Template.jsonGet fields key with
  | none => rfl
  | some v =>
    obtain ⟨xs, rfl⟩ := h v hg
    rfl

/-- Every line process_fmt_output can emit is a known fixed line, a count
    line, a diagnostic line, or a line containing the fmt marker. -/
theorem fmt_line_cases (st : Scanner.FileState) (l : String)
    (h : l ∈ Scanner.process_fmt_output st) :
    l = "No formatting issues found." ∨ l = "" ∨ l = "```" ∨
    strStarts l "Found " = true ∨ strStarts l "Error processing fmt output: " = true ∨
    strContains l "Diff in" = true := by
  cases st with
  | absent => simp [Scanner.process_fmt_output] at h
  | present c =>
    by_cases hw : (Scanner.fmtMatches c).isEmpty
    · have hrw : Scanner.process_fmt_output (.present c) = ["No formatting issues found."] := by
        simp [Scanner.process_fmt_output, Scanner.renderFmt, hw]
      rw [hrw] at h
      simp at h
      exact Or.inl h
    · have hrw : Scanner.process_fmt_output (.present c) =
          ("Found " ++ toString (Scanner.fmtMatches c).length ++ " formatting issues:") ::
            "" :: "```" :: (Scanner.fmtMatches c ++ ["```"]) := by
        simp [Scanner.process_fmt_output, Scanner.renderFmt, hw]
      rw [hrw] at h
      rcases mem_fence_block h with h | h | h | h
      · exact Or.inr (Or.inr (Or.inr (Or.inl (by rw [h]; exact strStarts_append2 _ _ _))))
      · exact Or.inr (Or.inl h)
      · exact Or.inr (Or.inr (Or.inl h))
      · exact Or.inr (Or.inr (Or.inr (Or.inr (Or.inr (List.mem_filter.mp h).2))))
  | ioError e =>
    simp only [Scanner.process_fmt_output] at h
    rcases List.mem_cons.mp h with h | h
    · exact Or.inr (Or.inr (Or.inr (Or.inr (Or.inl (by rw [h]; exact strStarts_append _ _)))))
    · exact absurd h (List.not_mem_nil _)

/-- Every line process_test_output can emit is a known fixed line, a
    diagnostic line, or a line containing the failure marker. -/
theorem test_line_cases (st : Scanner.FileState) (l : String)
    (h : l ∈ Scanner.process_test_output st) :
    l = "✅ All tests passed" ∨ l = "❌ Some tests failed:" ∨ l = "" ∨ l = "```" ∨
    strStarts l "Error processing test output: " = true ∨
    strContains l "test result: FAILED" = true := by
  cases st with
  | absent => simp [Scanner.process_test_output] at h
  | present c =>
    by_cases hok : strContains c "test result: ok" = true
    · have hrw : Scanner.process_test_output (.present c) = ["✅ All tests passed"] := by
        simp [Scanner.process_test_output, Scanner.renderTest, hok]
      rw [hrw] at h
      simp at h
      exact Or.inl h
    · by_cases hw : (Scanner.testFailMatches c).isEmpty
      · have hrw : Scanner.process_test_output (.present c) = [] := by
          simp [Scanner.process_test_output, Scanner.renderTest, hok, hw]
        rw [hrw] at h
        exact absurd h (List.not_mem_nil _)
      · have hrw : Scanner.process_test_output (.present c) =
            "❌ Some tests failed:" :: "" :: "```" :: (Scanner.testFailMatches c ++ ["```"]) := by
          simp [Scanner.process_test_output, Scanner.renderTest, hok, hw]
        rw [hrw] at h
        rcases mem_fence_block h with h | h | h | h
        · exact Or.inr (Or.inl h)
        · exact Or.inr (Or.inr (Or.inl h))
        · exact Or.inr (Or.inr (Or.inr (Or.inl h)))
        · exact Or.inr (Or.inr (Or.inr (Or.inr (Or.inr (List.mem_filter.mp h).2))))
  | ioError e =>
    simp only [Scanner.process_test_output] at h
    rcases List.mem_cons.mp h with h | h
    · exact Or.inr (Or.inr (Or.inr (Or.inr (Or.inl (by rw [h]; exact strStarts_append _ _)))))
    · exact absurd h (List.not_mem_nil _)

/-- The Rust Analysis heading cannot come from the header block. -/
theorem rust_na_header (t : String) : "### Rust Analysis" ∉ Scanner.headerLines t := by
  intro hm
  rcases List.mem_cons.mp hm with h | hm
  · exact absurd h (by decide)
  rcases List.mem_cons.mp hm with h | hm
  · exact absurd h.symm (ne_of_starts _ _ "Generated on: " (strStarts_append _ _) (by decide))
  rcases List.mem_cons.mp hm with h | hm
  · exact absurd h (by decide)
  rcases List.mem_cons.mp hm with h | hm
  · exact absurd h (by decide)
  rcases List.mem_cons.mp hm with h | hm
  · exact absurd h (by decide)
  · exact absurd hm (List.not_mem_nil _)

/-- The Rust Analysis heading cannot come from the Formatting Issues block. -/
theorem rust_na_fmtSection (st : Scanner.FileState) :
    "### Rust Analysis" ∉ Scanner.fmtSection st := by
  intro hm
  simp only [Scanner.fmtSection] at hm
  cases hw : (Scanner.process_fmt_output st).isEmpty with
  | true => rw [hw] at hm; simp at hm
  | false =>
    rw [hw] at hm
    simp only [Bool.not_false, if_true] at hm
    rcases List.mem_cons.mp hm with h | hm
    · exact absurd h (by decide)
    rcases List.mem_cons.mp hm with h | hm
    · exact absurd h (by decide)
    simp only [List.append_eq, List.nil_append] at hm
    rcases List.mem_append.mp hm with hm | hm
    · rcases fmt_line_cases st _ hm with h | h | h | h | h | h <;> exact absurd h (by decide)
    rcases List.mem_cons.mp hm with h | hm
    · exact absurd h (by decide)
    · exact absurd hm (List.not_mem_nil _)

/-- The Rust Analysis heading cannot come from the Test Results block. -/
theorem rust_na_testSection (st : Scanner.FileState) :
    "### Rust Analysis" ∉ Scanner.testSection st := by
  intro hm
  simp only [Scanner.testSection] at hm
  cases hw : (Scanner.process_test_output st).isEmpty with
  | true => rw [hw] at hm; simp at hm
  | false =>
    rw [hw] at hm
    simp only [Bool.not_false, if_true] at hm
    rcases List.mem_cons.mp hm with h | hm
    · exact absurd h (by decide)
    rcases List.mem_cons.mp hm with h | hm
    · exact absurd h (by decide)
    simp only [List.append_eq, List.nil_append] at hm
    rcases List.mem_append.mp hm with hm | hm
    · rcases test_line_cases st _ hm with h | h | h | h | h | h <;> exact absurd h (by decide)
    rcases List.mem_cons.mp hm with h | hm
    · exact absurd h (by decide)
    · exact absurd hm (List.not_mem_nil _)

/- Claim theorems. -/

/-- C2 counterexample: when clippy-output.txt is absent, the Clippy section is
    omitted entirely; in particular its fixed no-issues sentence does not
    appear anywhere in the generated report, contradicting the claim that an
    absent file renders exactly that sentence. -/
theorem C2_counterexample :
    Scanner.process_clippy_output .absent = [] ∧
    "No clippy warnings found." ∉
      Scanner.reportLines ⟨.absent, .absent, .absent⟩ "2025-01-01 00:00:00 UTC" :=
  ⟨rfl, by decide⟩

/-- C2 (amended): for every absent input log file the Log Scanner processor
    yields empty output and the corresponding report section is omitted
    entirely (no error is raised); with all three files absent the report is
    exactly the fixed header block. -/
theorem C2_absent_files_omitted (t : String) :
    Scanner.process_clippy_output .absent = [] ∧
    Scanner.process_fmt_output .absent = [] ∧
    Scanner.process_test_output .absent = [] ∧
    Scanner.reportLines ⟨.absent, .absent, .absent⟩ t = Scanner.headerLines t :=
  ⟨rfl, rfl, rfl, rfl⟩

/-- C9: the Log Scanner report is a deterministic function of the three input
    files except for the timestamp: line index 1 is the Generated-on line, and
    the reports produced at two different timestamps from the same inputs
    agree byte-for-byte once that single line is erased. -/
theorem C9_deterministic (inp : Scanner.ScannerInput) (t1 t2 : String) :
    (Scanner.reportLines inp t1).get? 1 = some ("Generated on: " ++ t1) ∧
    (Scanner.reportLines inp t1).eraseIdx 1 = (Scanner.reportLines inp t2).eraseIdx 1 :=
  ⟨rfl, rfl⟩

/-- C7: a read failure other than absence on an optional log source is caught
    and becomes a one-line diagnostic in the output of that section; the run is not
    aborted: the report file is still written (including the diagnostic line)
    and the success message with the output path is still printed. -/
theorem C7_best_effort (e : String) (fmtSt testSt : Scanner.FileState) (fs : FS) (t : String) :
    Scanner.process_clippy_output (.ioError e) = ["Error processing clippy output: " ++ e] ∧
    Scanner.process_fmt_output (.ioError e) = ["Error processing fmt output: " ++ e] ∧
    Scanner.process_test_output (.ioError e) = ["Error processing test output: " ++ e] ∧
    ("Error processing clippy output: " ++ e) ∈
      Scanner.reportLines ⟨.ioError e, fmtSt, testSt⟩ t ∧
    Scanner.main fs ⟨.ioError e, fmtSt, testSt⟩ t =
      some ({ reportsDirExists := true,
              files := upsert fs.files "analysis-report.md"
                (String.intercalate "\n" (Scanner.reportLines ⟨.ioError e, fmtSt, testSt⟩ t)) },
            "Report generated at reports/analysis-report.md") := by
  refine ⟨rfl, rfl, rfl, ?_, rfl⟩
  simp [Scanner.reportLines, Scanner.clippySection, Scanner.headerLines,
        Scanner.process_clippy_output]

/-- C5: test-output processing is a two-branch check: if the overall-success
    marker occurs anywhere in the file content, the section is the single
    success line regardless of any other lines; only when the marker is absent
    are the per-line failure markers scanned and rendered. -/
theorem C5_test_two_branch (content : String) :
    (strContains content "test result: ok" = true →
      Scanner.process_test_output (.present content) = ["✅ All tests passed"]) ∧
    (strContains content "test result: ok" = false →
      Scanner.process_test_output (.present content) =
        if !(Scanner.testFailMatches content).isEmpty then
          "❌ Some tests failed:" :: "" :: "```" :: (Scanner.testFailMatches content ++ ["```"])
        else []) := by
  constructor <;> intro h <;> simp [Scanner.process_test_output, Scanner.renderTest, h]

/-- C5 witness: a file containing the success marker plus unrelated lines and
    even a failure-marker line still renders the single success line. -/
theorem C5_witness :
    Scanner.process_test_output
        (.present "running 6 tests\ntest result: ok. 5 passed\ntest result: FAILED noise") =
      ["✅ All tests passed"] :=
  (C5_test_two_branch "running 6 tests\ntest result: ok. 5 passed\ntest result: FAILED noise").1
    (by decide)

/-- C6: for every JSON analysis mapping whose five summary keys, when present,
    hold lists, the MetricsSummary is computed (no error) and each count
    equals the length of the corresponding list, with 0 for each absent key. -/
theorem C6_metrics (fields : List (String × Template.Json))
    (h1 : ∀ v, Template.jsonGet fields "files" = some v → ∃ xs, v = Template.Json.arr xs)
    (h2 : ∀ v, Template.jsonGet fields "critical" = some v → ∃ xs, v = Template.Json.arr xs)
    (h3 : ∀ v, Template.jsonGet fields "major" = some v → ∃ xs, v = Template.Json.arr xs)
    (h4 : ∀ v, Template.jsonGet fields "minor" = some v → ∃ xs, v = Template.Json.arr xs)
    (h5 : ∀ v, Template.jsonGet fields "best_practices" = some v →
      ∃ xs, v = Template.Json.arr xs) :
    Template.calculate_metrics (Template.Json.obj fields) =
      some ⟨Template.countFor fields "files", Template.countFor fields "critical",
            Template.countFor fields "major", Template.countFor fields "minor",
            Template.countFor fields "best_practices"⟩ := by
  simp [Template.calculate_metrics, lenOfKey_of_listValued _ _ h1,
        lenOfKey_of_listValued _ _ h2, lenOfKey_of_listValued _ _ h3,
        lenOfKey_of_listValued _ _ h4, lenOfKey_of_listValued _ _ h5]

/-- C6 witness: the empty mapping yields all five counts equal to 0. -/
theorem C6_witness :
    Template.calculate_metrics (Template.Json.obj []) =
      some ⟨0, 0, 0, 0, 0⟩ :=
  (C6_metrics []
    (fun v hv => by simp [Template.jsonGet] at hv)
    (fun v hv => by simp [Template.jsonGet] at hv)
    (fun v hv => by simp [Template.jsonGet] at hv)
    (fun v hv => by simp [Template.jsonGet] at hv)
    (fun v hv => by simp [Template.jsonGet] at hv)).trans rfl

/-- C1 counterexample: with valid inputs but no pre-existing reports
    directory, the Template-Based Report Builder run fails at the write step
    and leaves the filesystem unchanged; the script never creates the
    directory, contradicting the claim that the write always succeeds. -/
theorem C1_counterexample :
    Template.main (fun _ => "R") "proj" "2026-10-12" "20261012"
      (.wellFormed (.obj [])) (.wellFormed (.obj [])) (.wellFormed (.obj []))
      ⟨false, []⟩ = (.error .writeError, (⟨false, []⟩ : FS)) := rfl

/-- C1 (amended): when the reports directory already exists and the inputs
    load and render, the builder writes the rendered text to
    reports/project-review-date.md, overwriting any existing file of that
    name, and prints the output path; the directory is never created by the
    script. -/
theorem C1_amended_thm (render : Template.Context → String) (project date dc : String)
    (ja jsec jperf : Template.Json) (fs : FS) (m : Template.Metrics)
    (hdir : fs.reportsDirExists = true)
    (hm : Template.calculate_metrics ja = some m) :
    Template.main render project date dc
        (.wellFormed ja) (.wellFormed jsec) (.wellFormed jperf) fs =
      (.ok ("Report generated: reports/" ++ (project ++ "-review-" ++ dc ++ ".md")),
       { fs with files :=
                   upsert fs.files (project ++ "-review-" ++ dc ++ ".md")
                     (render { project_name := project, date := date,
                               reviewer := "DataScienceBioLab", analysis := ja,
                               security := jsec, performance := jperf, metrics := m }) }) ∧
    lookupFile (Template.main render project date dc
        (.wellFormed ja) (.wellFormed jsec) (.wellFormed jperf) fs).2.files
        (project ++ "-review-" ++ dc ++ ".md") =
      some (render { project_name := project, date := date, reviewer := "DataScienceBioLab",
                     analysis := ja, security := jsec, performance := jperf, metrics := m }) := by
  have hmain : Template.main render project date dc
      (.wellFormed ja) (.wellFormed jsec) (.wellFormed jperf) fs =
      (.ok ("Report generated: reports/" ++ (project ++ "-review-" ++ dc ++ ".md")),
       { fs with files :=
                   upsert fs.files (project ++ "-review-" ++ dc ++ ".md")
                     (render { project_name := project, date := date,
                               reviewer := "DataScienceBioLab", analysis := ja,
                               security := jsec, performance := jperf,
                               metrics := m }) }) := by
    simp [Template.main, Template.load_analysis_data, Template.load_security_data,
          Template.load_performance_data, Template.loadJson, Template.generate_report, hm,
          Template.save_report, openWrite, hdir]
  refine ⟨hmain, ?_⟩
  rw [hmain]
  exact lookupFile_upsert _ _ _

/-- C1 witness: concrete run with an existing reports directory that already
    holds an older file of the same name; the new content overwrites it. -/
theorem C1_witness :
    lookupFile (Template.main (fun _ => "REPORT") "proj" "2026-10-12" "20261012"
        (.wellFormed (.obj [])) (.wellFormed (.obj [])) (.wellFormed (.obj []))
        ⟨true, [("proj" ++ "-review-" ++ "20261012" ++ ".md", "old")]⟩).2.files
      ("proj" ++ "-review-" ++ "20261012" ++ ".md") = some "REPORT" :=
  (C1_amended_thm (fun _ => "REPORT") "proj" "2026-10-12" "20261012"
    (.obj []) (.obj []) (.obj [])
    ⟨true, [("proj" ++ "-review-" ++ "20261012" ++ ".md", "old")]⟩
    ⟨0, 0, 0, 0, 0⟩ rfl rfl).2

/-- C8: any file-not-found or JSON-parse failure while loading the analysis,
    security, or performance input makes the Template-Based Report Builder
    return a load error and leaves the filesystem unchanged: no report file,
    not even a partly written one, is produced (every load completes before
    any write begins). -/
theorem C8_load_failure_fatal (render : Template.Context → String)
    (project date dc : String) (fa fsec fperf : Template.InputFile) (fs : FS)
    (h : Template.loadFails fa = true ∨ Template.loadFails fsec = true ∨
         Template.loadFails fperf = true) :
    Template.resultIsLoadFailure
        (Template.main render project date dc fa fsec fperf fs).1 = true ∧
    (Template.main render project date dc fa fsec fperf fs).2 = fs := by
  cases fa <;> cases fsec <;> cases fperf <;>
    simp_all [Template.main, Template.load_analysis_data, Template.load_security_data,
      Template.load_performance_data, Template.loadJson, Template.loadFails,
      Template.resultIsLoadFailure, Template.isLoadFailure]

/-- C8 witness: an absent analysis file yields a load failure and an unchanged
    filesystem. -/
theorem C8_witness :
    Template.resultIsLoadFailure
        (Template.main (fun _ => "R") "proj" "2026-10-12" "20261012"
          .absent (.wellFormed (.obj [])) (.wellFormed (.obj [])) ⟨true, []⟩).1 = true ∧
    (Template.main (fun _ => "R") "proj" "2026-10-12" "20261012"
        .absent (.wellFormed (.obj [])) (.wellFormed (.obj [])) ⟨true, []⟩).2 =
      (⟨true, []⟩ : FS) :=
  C8_load_failure_fatal _ _ _ _ _ _ _ _ (Or.inl rfl)

/-- C3 counterexample: test-output.txt exists but contains neither marker;
    the Test Results section yields no lines at all and is omitted from the
    report, contradicting the claim that all three canonical sections render a
    fixed no-issues sentence in this situation. -/
theorem C3_counterexample :
    Scanner.process_test_output (.present "running 0 tests") = [] ∧
    "### Test Results" ∉
      Scanner.reportLines ⟨.absent, .absent, .present "running 0 tests"⟩ "T" :=
  ⟨rfl, by decide⟩

/-- C3 (amended): when a source file exists with no matching lines, the Clippy
    and Formatting sections render exactly their fixed no-issues sentences,
    while the Test Results section is omitted entirely; no section is rendered
    with an empty placeholder. -/
theorem C3_no_match_sections (c f t ts : String)
    (hc : Scanner.clippyMatches c = [])
    (hf : Scanner.fmtMatches f = [])
    (hto : strContains t "test result: ok" = false)
    (htf : Scanner.testFailMatches t = []) :
    Scanner.process_clippy_output (.present c) = ["No clippy warnings found."] ∧
    Scanner.process_fmt_output (.present f) = ["No formatting issues found."] ∧
    Scanner.process_test_output (.present t) = [] ∧
    Scanner.reportLines ⟨.present c, .present f, .present t⟩ ts =
      ["# Code Analysis Report", "Generated on: " ++ ts, "", "## Summary", "",
       "### Rust Analysis", "", "#### Clippy Findings", "", "No clippy warnings found.", "",
       "#### Formatting Issues", "", "No formatting issues found.", ""] := by
  have h1 : Scanner.process_clippy_output (.present c) = ["No clippy warnings found."] := by
    simp [Scanner.process_clippy_output, Scanner.renderClippy, hc]
  have h2 : Scanner.process_fmt_output (.present f) = ["No formatting issues found."] := by
    simp [Scanner.process_fmt_output, Scanner.renderFmt, hf]
  have h3 : Scanner.process_test_output (.present t) = [] := by
    simp [Scanner.process_test_output, Scanner.renderTest, hto, htf]
  refine ⟨h1, h2, h3, ?_⟩
  simp [Scanner.reportLines, Scanner.clippySection, Scanner.fmtSection, Scanner.testSection,
        Scanner.headerLines, h1, h2, h3]

/-- C3 witness: three concrete files with no matching lines. -/
theorem C3_witness :
    Scanner.process_clippy_output (.present "fn main") = ["No clippy warnings found."] ∧
    Scanner.process_fmt_output (.present "all clean") = ["No formatting issues found."] ∧
    Scanner.process_test_output (.present "running 5 tests") = [] ∧
    Scanner.reportLines
        ⟨.present "fn main", .present "all clean", .present "running 5 tests"⟩ "TS" =
      ["# Code Analysis Report", "Generated on: " ++ "TS", "", "## Summary", "",
       "### Rust Analysis", "", "#### Clippy Findings", "", "No clippy warnings found.", "",
       "#### Formatting Issues", "", "No formatting issues found.", ""] :=
  C3_no_match_sections "fn main" "all clean" "running 5 tests" "TS" rfl rfl rfl rfl

/-- C4 counterexample: a test-output file with one matching failure line
    produces a section whose first line is the fixed failure header, with no
    count line at all, contradicting the claim for every input log file. -/
theorem C4_counterexample :
    Scanner.process_test_output (.present "test result: FAILED. 1 failed") =
      ["❌ Some tests failed:", "", "```", "test result: FAILED. 1 failed", "```"] ∧
    (Scanner.process_test_output (.present "test result: FAILED. 1 failed")).all
      (fun l => !(strStarts l "Found ")) = true :=
  ⟨by decide, by decide⟩

/-- C4 (amended): for the clippy and fmt log files, a non-empty match set
    yields exactly the count line stating the number of matching lines, a
    blank, and a fenced block holding exactly the matching lines in original
    file order (a filter of the lines of the file). -/
theorem C4_exact_counts (c f : String)
    (hc : Scanner.clippyMatches c ≠ []) (hf : Scanner.fmtMatches f ≠ []) :
    Scanner.process_clippy_output (.present c) =
      ("Found " ++ toString (Scanner.clippyMatches c).length ++ " clippy warnings:") ::
        "" :: "```" :: (Scanner.clippyMatches c ++ ["```"]) ∧
    Scanner.process_fmt_output (.present f) =
      ("Found " ++ toString (Scanner.fmtMatches f).length ++ " formatting issues:") ::
        "" :: "```" :: (Scanner.fmtMatches f ++ ["```"]) ∧
    (∀ l, l ∈ Scanner.clippyMatches c ↔ l ∈ pySplitlines c ∧ strContains l "warning:" = true) ∧
    (∀ l, l ∈ Scanner.fmtMatches f ↔ l ∈ pySplitlines f ∧ strContains l "Diff in" = true) ∧
    List.Sublist (Scanner.clippyMatches c) (pySplitlines c) ∧
    List.Sublist (Scanner.fmtMatches f) (pySplitlines f) := by
  refine ⟨?_, ?_, ?_, ?_, List.filter_sublist _, List.filter_sublist _⟩
  · cases h : Scanner.clippyMatches c with
    | nil => exact absurd h hc
    | cons a as => simp [Scanner.process_clippy_output, Scanner.renderClippy, h]
  · cases h : Scanner.fmtMatches f with
    | nil => exact absurd h hf
    | cons a as => simp [Scanner.process_fmt_output, Scanner.renderFmt, h]
  · intro l
    simp [Scanner.clippyMatches, List.mem_filter]
  · intro l
    simp [Scanner.fmtMatches, List.mem_filter]

/-- C4 witness: the spec scenario, a clippy log with two matching lines and
    one non-matching line renders the exact count and exactly those lines. -/
theorem C4_witness :
    Scanner.process_clippy_output
        (.present "warning: unused variable\nclean line\nwarning: dead code") =
      ["Found 2 clippy warnings:", "", "```",
       "warning: unused variable", "warning: dead code", "```"] := by
  have h := C4_exact_counts "warning: unused variable\nclean line\nwarning: dead code"
    "Diff in src/lib.rs" (by decide) (by decide)
  rw [h.1]
  decide

/-- C10: the Rust Analysis heading appears in the report exactly when clippy
    processing produced non-empty output; and when clippy output is empty but
    fmt output is not, the level-four Formatting Issues heading follows the
    header block directly, whose lines none start with a level-three heading
    marker, so the subsection has no enclosing level-three parent above it. -/
theorem C10_rust_heading (inp : Scanner.ScannerInput) (t : String) :
    ("### Rust Analysis" ∈ Scanner.reportLines inp t ↔
      Scanner.process_clippy_output inp.clippy ≠ []) ∧
    (Scanner.process_clippy_output inp.clippy = [] →
      Scanner.process_fmt_output inp.fmt ≠ [] →
      Scanner.reportLines inp t =
        Scanner.headerLines t ++
          ("#### Formatting Issues" :: "" :: (Scanner.process_fmt_output inp.fmt ++ [""])) ++
          Scanner.testSection inp.test ∧
      ∀ l ∈ Scanner.headerLines t, strStarts l "### " = false) := by
  constructor
  · constructor
    · intro hm
      intro hnil
      have hsec : Scanner.clippySection inp.clippy = [] := by
        simp [Scanner.clippySection, hnil]
      have hrep : Scanner.reportLines inp t =
          Scanner.headerLines t ++ Scanner.fmtSection inp.fmt ++ Scanner.testSection inp.test := by
        simp only [Scanner.reportLines, hsec, List.append_nil]
      rw [hrep] at hm
      rcases List.mem_append.mp hm with hm1 | hm1
      · rcases List.mem_append.mp hm1 with hm2 | hm2
        · exact rust_na_header t hm2
        · exact rust_na_fmtSection _ hm2
      · exact rust_na_testSection _ hm1
    · intro hne
      cases hrs : Scanner.process_clippy_output inp.clippy with
      | nil => exact absurd hrs hne
      | cons a as =>
        have hsec : Scanner.clippySection inp.clippy =
            ["### Rust Analysis", "", "#### Clippy Findings", ""] ++ ((a :: as) ++ [""]) := by
          simp [Scanner.clippySection, hrs]
        simp only [Scanner.reportLines, hsec]
        apply List.mem_append.mpr
        left
        apply List.mem_append.mpr
        left
        apply List.mem_append.mpr
        right
        exact List.mem_append.mpr (Or.inl (List.mem_cons_self _ _))
  · intro hnil hf
    have hsec : Scanner.clippySection inp.clippy = [] := by
      simp [Scanner.clippySection, hnil]
    have hfsec : Scanner.fmtSection inp.fmt =
        "#### Formatting Issues" :: "" :: (Scanner.process_fmt_output inp.fmt ++ [""]) := by
      cases hrs : Scanner.process_fmt_output inp.fmt with
      | nil => exact absurd hrs hf
      | cons b bs => simp [Scanner.fmtSection, hrs]
    constructor
    · simp only [Scanner.reportLines, hsec, List.append_nil, hfsec]
    · intro l hl
      rcases List.mem_cons.mp hl with h | hl
      · rw [h]; decide
      rcases List.mem_cons.mp hl with h | hl
      · rw [h]; rfl
      rcases List.mem_cons.mp hl with h | hl
      · rw [h]; decide
      rcases List.mem_cons.mp hl with h | hl
      · rw [h]; decide
      rcases List.mem_cons.mp hl with h | hl
      · rw [h]; decide
      · exact absurd hl (List.not_mem_nil _)

/-- C10 witness: clippy-output.txt absent, fmt-output.txt with one matching
    line: no Rust Analysis heading is emitted, and the Formatting Issues
    subsection directly follows the header block. -/
theorem C10_witness :
    ("### Rust Analysis" ∈
        Scanner.reportLines ⟨.absent, .present "Diff in src/main.rs", .absent⟩ "T" ↔
      Scanner.process_clippy_output .absent ≠ []) ∧
    Scanner.reportLines ⟨.absent, .present "Diff in src/main.rs", .absent⟩ "T" =
      Scanner.headerLines "T" ++
        ("#### Formatting Issues" :: "" ::
          (Scanner.process_fmt_output (.present "Diff in src/main.rs") ++ [""])) ++
        Scanner.testSection .absent :=
  ⟨(C10_rust_heading ⟨.absent, .present "Diff in src/main.rs", .absent⟩ "T").1,
   ((C10_rust_heading ⟨.absent, .present "Diff in src/main.rs", .absent⟩ "T").2
     rfl (by decide)).1⟩
